import Mathlib

/-!
Shallow embedding of the peer-to-peer card game implementation in `src/main.js`,
together with proofs about its action-processing pipeline.

Modelling conventions:
* JavaScript objects become Lean structures; in-place mutation becomes explicit
  state passing.  Where the code mutates an array obtained by aliasing (for
  example `targetInfo.stack`, which aliases `gameState.fieldSlots[i]`), the
  model performs an explicit write-back to the same slot index.  Card objects
  placed into slots by `applyDeckReset` remain the very objects stored in
  `gameState.deck`, so a mutation of a slot or hand card is also written
  through to the deck entry carrying the same card id.
* JavaScript numbers used as integers become `Int` (client-supplied values,
  resources) or `Nat` (indices produced by the code itself).
* `Math.random()`-driven choices are passed in as explicit parameters
  (a first-turn index, or a function `Nat → Nat` supplying the Fisher–Yates
  indices), so every theorem quantifies over all possible random outcomes.
* `JSON.parse(JSON.stringify s)` deep-copies the serialisable fields of the
  state; under value semantics this is the identity on the modelled fields.
-/

/-- Mirror of `createCard`'s object shape (`src/main.js` lines 21-30). -/
structure Card where
  cardId : String
  front : String
  back : String
  isFaceDown : Bool
  orientation : Nat
  slot : Option Nat
deriving Repr, DecidableEq

/-- Mirror of `createPlayer`'s object shape (`src/main.js` lines 9-19). -/
structure Player where
  id : String
  name : String
  health : Int
  lifeforce : Int
  hand : List Card
  isMyTurn : Bool
  hasForfeited : Bool
deriving Repr, DecidableEq

/-- Mirror of the global `gameState` object (`src/main.js` lines 35-47).
The non-serialisable `peer` handle is outside the model; connections are
abstracted to their peer identifiers. -/
structure GState where
  players : List Player
  currentPlayerIndex : Nat
  fieldSlots : List (List Card)
  deck : List Card
  gameActive : Bool
  isHost : Bool
  hostId : Option String
  connections : List String
deriving Repr, DecidableEq

/-- `createCard(cardId, front, back)`. -/
def createCard (cardId front back : String) : Card :=
  { cardId := cardId, front := front, back := back,
    isFaceDown := true, orientation := 0, slot := none }

/-- `createPlayer(id, name)`. -/
def createPlayer (id name : String) : Player :=
  { id := id, name := name, health := 40, lifeforce := 10,
    hand := [], isMyTurn := false, hasForfeited := false }

/-- The initial value of the global `gameState` (lines 35-47). -/
def initialGameState : GState :=
  { players := [], currentPlayerIndex := 0,
    fieldSlots := [[], [], [], [], [], [], [], [], [], []],
    deck := [], gameActive := false,
    isHost := false, hostId := none, connections := [] }

/-- `clamp(value, min, max)` (line 52): `Math.max(min, Math.min(value, max))`. -/
def clamp (value lo hi : Int) : Int :=
  Max.max lo (Min.min value hi)

/-- `clampHealth` (line 60): `Math.max(health, 0)`. -/
def clampHealth (health : Int) : Int :=
  Max.max health 0

/-- `clampLifeforce` (line 64). -/
def clampLifeforce (lifeforce : Int) : Int :=
  clamp lifeforce 0 10

/-- The 41-card deck built by `initGameAsHost` (lines 185-193) and rebuilt
identically by `applyGameReset` (lines 302-306). -/
def canonicalDeck : List Card :=
  (List.range 41).map (fun i =>
    createCard (String.append "card-" (toString i))
      (String.append "assets/front-" (String.append (toString i) ".png"))
      "assets/back.png")

/-- Models `gameState.players[idx].isMyTurn = true` (lines 197 and 310).
An out-of-range index would throw in JavaScript; it never occurs because the
random index is drawn below `players.length`. -/
def setTurnFlag (players : List Player) (i : Nat) : List Player :=
  match players[i]? with
  | some p => players.set i { p with isMyTurn := true }
  | none => players

/-- `applyDeckReset` (lines 261-281).  Note the order faithfully kept from the
source: every slot stack and every hand is cleared *before* the 41-card
availability check, and the deck itself is never consumed. -/
def applyDeckReset (s : GState) : GState :=
  let slots0 := s.fieldSlots.map (fun _ => ([] : List Card))
  let players0 := s.players.map (fun p => { p with hand := ([] : List Card) })
  if s.deck.length < 41 then
    { s with fieldSlots := slots0, players := players0 }
  else
    let slots1 := slots0.set 2 (s.deck.take 1)
    let slots2 := slots1.set 8 ((s.deck.drop 1).take 40)
    { s with fieldSlots := slots2, players := players0 }

/-- `initGameAsHost` (lines 177-205), parametrised by the random first-turn
index `r = getRandomFirstTurn(2)` (always `< 2`). -/
def initGameAsHost (r : Nat) (s : GState) : GState :=
  let s1 := { s with
    players := [createPlayer "p1" "Player 1", createPlayer "p2" "Player 2"],
    deck := canonicalDeck }
  let s2 := { s1 with
    currentPlayerIndex := r,
    players := setTurnFlag s1.players r,
    gameActive := true }
  applyDeckReset s2

/-- Host-side state right before `initGameAsHost` runs: `initPeerJS` has set
`isHost = true` and recorded the opened peer id (lines 77-83). -/
def hostStartState (hid : String) : GState :=
  { initialGameState with isHost := true, hostId := some hid }

/-- `endTurn(playerId)` (lines 210-227). -/
def endTurn (s : GState) (playerId : String) : GState :=
  match s.players[s.currentPlayerIndex]? with
  | none => s
  | some currentPlayer =>
    if currentPlayer.id = playerId then
      let players1 := s.players.set s.currentPlayerIndex
        { currentPlayer with isMyTurn := false }
      let newIdx := (s.currentPlayerIndex + 1) % s.players.length
      let players2 :=
        match players1[newIdx]? with
        | some nextPlayer =>
          players1.set newIdx
            { nextPlayer with
              isMyTurn := true,
              lifeforce := clampLifeforce (nextPlayer.lifeforce + 5) }
        | none => players1
      { s with players := players2, currentPlayerIndex := newIdx }
    else s

/-- Models `gameState.players.find(p => p.id === playerId)` followed by a
mutation of the found object: apply `f` to the first player whose id matches. -/
def updateFirst (f : Player → Player) (pid : String) : List Player → List Player
  | [] => []
  | p :: ps =>
    if p.id = pid then f p :: ps else p :: updateFirst f pid ps

/-- `applyResourceUpdate(playerId, resourceType, newValue)` (lines 232-241). -/
def applyResourceUpdate (s : GState) (playerId resourceType : String)
    (newValue : Int) : GState :=
  { s with players := updateFirst (fun player =>
      if resourceType = "health" then
        { player with health := clampHealth newValue }
      else if resourceType = "lifeforce" then
        { player with lifeforce := clampLifeforce newValue }
      else player) playerId s.players }

/-- `applyForfeit(playerId)` (lines 246-256). -/
def applyForfeit (s : GState) (playerId : String) : GState :=
  match s.players.find? (fun p => p.id == playerId) with
  | none => s
  | some _ =>
    let players1 := updateFirst (fun p => { p with hasForfeited := true })
      playerId s.players
    let active := players1.filter (fun p => !p.hasForfeited)
    if active.length ≤ 1 then
      { s with players := players1, gameActive := false }
    else
      { s with players := players1 }

/-- `applyGameReset` (lines 286-315), parametrised by the random first-turn
index. -/
def applyGameReset (s : GState) (r : Nat) : GState :=
  let players1 := s.players.map (fun p =>
    { p with
      health := 40,
      lifeforce := 10,
      hand := ([] : List Card),
      hasForfeited := false,
      isMyTurn := false })
  let s1 := { s with
    players := players1,
    fieldSlots := s.fieldSlots.map (fun _ => ([] : List Card)),
    deck := canonicalDeck }
  let s2 := { s1 with
    currentPlayerIndex := r,
    players := setTurnFlag s1.players r,
    gameActive := true }
  applyDeckReset s2

/-- Models `hand.findIndex(c => c.cardId === cardId)` followed by
`splice(idx, 1)`: remove the first card with the given id, returning it. -/
def removeFirstCard (cardId : String) : List Card → Option Card × List Card
  | [] => (none, [])
  | c :: cs =>
    if c.cardId = cardId then (some c, cs)
    else
      let r := removeFirstCard cardId cs
      (r.1, c :: r.2)

/-- The `fromHand` search loop of `moveCardToSlot` (lines 323-332): scan the
players in order and splice the card out of the first hand containing it. -/
def removeCardFromHands (cardId : String) : List Player → Option Card × List Player
  | [] => (none, [])
  | p :: ps =>
    match removeFirstCard cardId p.hand with
    | (some c, h) => (some c, { p with hand := h } :: ps)
    | (none, _) =>
      let r := removeCardFromHands cardId ps
      (r.1, p :: r.2)

/-- `gameState.fieldSlots[slotIndex].push(card)` (line 347).  An out-of-range
index throws in JavaScript (after the card has already been spliced out of its
source container); the model mirrors the resulting canonical state. -/
def pushToSlot (slots : List (List Card)) (i : Nat) (c : Card) : List (List Card) :=
  match slots[i]? with
  | some st => slots.set i (st ++ [c])
  | none => slots

/-- Aliasing of deck entries: every card object sitting in a slot or hand was
pushed there from `gameState.deck` without copying (`applyDeckReset`, lines
273-280), so mutating such a card mutates the deck entry too.  Distinct card
objects of one deck generation have distinct ids, so the shared object is the
deck entry with the mutated card's id; writing a mutation through the alias
replaces that entry. -/
def writeThroughDeck (deck : List Card) (c : Card) : List Card :=
  deck.map (fun d => if d.cardId = c.cardId then c else d)

/-- `moveCardToSlot(cardId, slotIndex, fromHand, fromSlotIndex)` (lines
320-349).  The `card.slot = slotIndex` mutation of the pushed object is
modelled by pushing the card with its `slot` field already updated and by
writing the mutation through the deck entry that aliases the same object. -/
def moveCardToSlot (s : GState) (cardId : String) (slotIndex : Nat)
    (fromHand : Bool) (fromSlotIndex : Option Nat) : GState :=
  if fromHand then
    match removeCardFromHands cardId s.players with
    | (some card, players1) =>
      let placed := { card with slot := some slotIndex }
      { s with
        players := players1,
        fieldSlots := pushToSlot s.fieldSlots slotIndex placed,
        deck := writeThroughDeck s.deck placed }
    | (none, _) => s
  else
    match fromSlotIndex with
    | none => s
    | some fsi =>
      match s.fieldSlots[fsi]? with
      | none => s
      | some stack =>
        match removeFirstCard cardId stack with
        | (some card, stack1) =>
          let placed := { card with slot := some slotIndex }
          let slots1 := s.fieldSlots.set fsi stack1
          { s with
            fieldSlots := pushToSlot slots1 slotIndex placed,
            deck := writeThroughDeck s.deck placed }
        | (none, _) => s

/-- The client-supplied target descriptor consumed by
`reconstructTargetFromClient` (line 401): `{isSlot, slotIndex}` or
`{isHandCard, cardObject}`.  Only the card id of `cardObject` is ever read by
the host.  `slotIndex = none` models a non-number `slotIndex`. -/
structure ClientTarget where
  isSlot : Bool
  slotIndex : Option Int
  isHandCard : Bool
  cardObject : Option String
deriving Repr, DecidableEq

/-- The host-side resolved target, mirroring the `result` object of
`reconstructTargetFromClient` (lines 402-408). -/
structure TargetInfo where
  isSlot : Bool
  slotIndex : Option Int
  stack : List Card
  isHandCard : Bool
  cardObject : Option Card
deriving Repr, DecidableEq

/-- `gameState.fieldSlots[i] || []` (line 412): the slot's stack when `i` is
in range, an empty (detached) array otherwise. -/
def slotAt (s : GState) (i : Int) : List Card :=
  if 0 ≤ i then s.fieldSlots.getD i.toNat [] else []

/-- `findCardInAllHands(cardId)` (lines 423-430). -/
def findCardInAllHands (s : GState) (cardId : String) : Option Card :=
  ((s.players.map (fun p => p.hand)).flatten).find? (fun c => c.cardId == cardId)

/-- `reconstructTargetFromClient(clientTarget)` (lines 401-421). -/
def reconstructTargetFromClient (s : GState) (t : ClientTarget) : TargetInfo :=
  let r0 : TargetInfo :=
    { isSlot := t.isSlot, slotIndex := none, stack := [],
      isHandCard := t.isHandCard, cardObject := none }
  let r1 :=
    match t.isSlot, t.slotIndex with
    | true, some i => { r0 with slotIndex := some i, stack := slotAt s i }
    | _, _ => r0
  match t.isHandCard, t.cardObject with
  | true, some cid =>
    match findCardInAllHands s cid with
    | some realCard => { r1 with cardObject := some realCard }
    | none => r1
  | _, _ => r1

/-- `getTopCard(targetInfo)` (lines 461-468). -/
def getTopCard (t : TargetInfo) : Option Card :=
  if t.isSlot ∧ 0 < t.stack.length then t.stack.getLast?
  else if t.isHandCard then t.cardObject
  else none

/-- The mutation performed by `flipTopCard` (line 472). -/
def flipCard (c : Card) : Card :=
  { c with isFaceDown := !c.isFaceDown }

/-- The mutation performed by `rotateTopCard` (line 477). -/
def rotateCard (c : Card) : Card :=
  { c with orientation := (c.orientation + 90) % 360 }

/-- Apply `f` to the last element of a list, if any: mutation of the
top-of-stack card object. -/
def updateLast (f : Card → Card) : List Card → List Card
  | [] => []
  | [c] => [f c]
  | c :: cs => c :: updateLast f cs

/-- Write a stack back to `gameState.fieldSlots[i]`; out-of-range indices
leave the state unchanged (the aliased array was detached). -/
def setSlotInt (s : GState) (i : Int) (st : List Card) : GState :=
  if 0 ≤ i then { s with fieldSlots := s.fieldSlots.set i.toNat st } else s

/-- Apply `f` to the first card with the given id inside one hand, reporting
whether a card was found. -/
def updateHandCard (f : Card → Card) (cid : String) :
    List Card → Bool × List Card
  | [] => (false, [])
  | c :: cs =>
    if c.cardId = cid then (true, f c :: cs)
    else
      let r := updateHandCard f cid cs
      (r.1, c :: r.2)

/-- Apply `f` to the first card with the given id across all hands: the
mutation of the object returned by `findCardInAllHands`. -/
def updateHandsCard (f : Card → Card) (cid : String) : List Player → List Player
  | [] => []
  | p :: ps =>
    match updateHandCard f cid p.hand with
    | (true, h) => { p with hand := h } :: ps
    | (false, _) => p :: updateHandsCard f cid ps

/-- Common shape of `flipTopCard`/`rotateTopCard` (lines 470-478): resolve the
top card via `getTopCard` and mutate that object in place.  The in-place
mutation of the aliased card is modelled by writing back to the slot the
stack aliases (or to the hand holding the card) and, because that same object
is also a deck entry, through the deck alias as well. -/
def applyTopCardUpdate (s : GState) (t : TargetInfo) (f : Card → Card) : GState :=
  match getTopCard t with
  | none => s
  | some card =>
    if t.isSlot ∧ 0 < t.stack.length then
      match t.slotIndex with
      | some i =>
        let s1 := setSlotInt s i (updateLast f t.stack)
        { s1 with deck := writeThroughDeck s1.deck (f card) }
      | none => s
    else
      { s with
        players := updateHandsCard f card.cardId s.players,
        deck := writeThroughDeck s.deck (f card) }

/-- `flipTopCard(targetInfo)` (lines 470-473). -/
def flipTopCard (s : GState) (t : TargetInfo) : GState :=
  applyTopCardUpdate s t flipCard

/-- `rotateTopCard(targetInfo)` (lines 475-478). -/
def rotateTopCard (s : GState) (t : TargetInfo) : GState :=
  applyTopCardUpdate s t rotateCard

/-- One Fisher–Yates swap `[stack[i], stack[j]] = [stack[j], stack[i]]`
(line 531).  In every actual execution both indices are in range. -/
def swap (l : List Card) (i j : Nat) : List Card :=
  match l[i]?, l[j]? with
  | some a, some b => (l.set i b).set j a
  | _, _ => l

/-- The loop of `shuffleStack` (lines 529-532), counting `i` down from
`stack.length - 1` to `1`; `rand i` models `Math.floor(Math.random()*(i+1))`. -/
def shuffleAux (rand : Nat → Nat) (l : List Card) : Nat → List Card
  | 0 => l
  | i + 1 => shuffleAux rand (swap l (i + 1) (rand (i + 1))) i

/-- `shuffleStack(stack)` (lines 528-533), parametrised by the random draws. -/
def shuffleStack (rand : Nat → Nat) (stack : List Card) : List Card :=
  shuffleAux rand stack (stack.length - 1)

/-- `gameState.players[gameState.currentPlayerIndex].hand.push(card)`
(lines 540-541). -/
def pushToCurrentHand (s : GState) (c : Card) : GState :=
  match s.players[s.currentPlayerIndex]? with
  | some p =>
    let p1 := { p with hand := p.hand ++ [c] }
    { s with players := s.players.set s.currentPlayerIndex p1 }
  | none => s

/-- `drawTopCard(targetInfo)` (lines 535-542): `targetInfo.stack.pop()`
aliases the slot the target resolved to, so the pop is modelled as a
write-back of the stack minus its last element. -/
def drawTopCard (s : GState) (t : TargetInfo) : GState :=
  match getTopCard t with
  | none => s
  | some topCard =>
    let s1 :=
      match t.slotIndex with
      | some i => setSlotInt s i t.stack.dropLast
      | none => s
    pushToCurrentHand s1 topCard

/-- `applyContextAction(actionType, targetInfo)` (lines 435-459).  ZOOM and
SEARCH only drive the host's local UI and leave the canonical state unchanged.
The SHUFFLE branch writes the shuffled stack back to the slot the target's
stack aliases (a detached empty array otherwise). -/
def applyContextAction (s : GState) (actionType : String) (t : TargetInfo)
    (rand : Nat → Nat) : GState :=
  if actionType = "FLIP" then flipTopCard s t
  else if actionType = "ROTATE" then rotateTopCard s t
  else if actionType = "ZOOM" then s
  else if actionType = "SEARCH" then s
  else if actionType = "SHUFFLE" then
    match t.slotIndex with
    | some i => setSlotInt s i (shuffleStack rand t.stack)
    | none => s
  else if actionType = "DRAW" then drawTopCard s t
  else s

/-- The action payloads dispatched by `handlePlayerAction` (lines 354-396).
`rand` carries the random draws a SHUFFLE will consume; `r` carries the random
first-turn index a GAME_RESET will use. -/
inductive GameAction where
  | endTurnAct (playerId : String)
  | moveCardAct (cardId : String) (slotIndex : Nat) (fromHand : Bool)
      (fromSlotIndex : Option Nat)
  | contextAct (actionType : String) (target : ClientTarget) (rand : Nat → Nat)
  | updateResourceAct (playerId : String) (resourceType : String) (newValue : Int)
  | forfeitAct (playerId : String)
  | deckResetAct
  | gameResetAct (r : Nat)
  | unknownAct

/-- The state transformation of `handlePlayerAction`'s switch (lines 354-394);
the CONTEXT_ACTION branch first reconstructs the target (line 371). -/
def applyAction (s : GState) : GameAction → GState
  | .endTurnAct pid => endTurn s pid
  | .moveCardAct cid si fh fsi => moveCardToSlot s cid si fh fsi
  | .contextAct ty tgt rand =>
      applyContextAction s ty (reconstructTargetFromClient s tgt) rand
  | .updateResourceAct pid ty v => applyResourceUpdate s pid ty v
  | .forfeitAct pid => applyForfeit s pid
  | .deckResetAct => applyDeckReset s
  | .gameResetAct r => applyGameReset s r
  | .unknownAct => s

/-- Message payloads carried by the protocol envelope. -/
inductive MsgPayload where
  | actionPayload (a : GameAction)
  | statePayload (s : GState)
  | emptyPayload

/-- The message envelope `{ type, payload }` (lines 156-159). -/
structure Message where
  type : String
  payload : MsgPayload

/-- The message built by `broadcastGameState` (lines 154-159): a full
serialised snapshot of the state.  The JSON round trip deep-copies every
modelled field, so under value semantics the payload is the state itself. -/
def broadcastGameState (s : GState) : Message :=
  { type := "SYNC_GAME_STATE", payload := .statePayload s }

/-- `updateGameStateFromHost(hostState)` (lines 169-172):
`Object.assign(gameState, hostState)` overwrites every field present in the
snapshot — the game fields and the role/connection fields alike. -/
def updateGameStateFromHost (s : GState) (hostState : GState) : GState :=
  { s with
    players := hostState.players,
    currentPlayerIndex := hostState.currentPlayerIndex,
    fieldSlots := hostState.fieldSlots,
    deck := hostState.deck,
    gameActive := hostState.gameActive,
    isHost := hostState.isHost,
    hostId := hostState.hostId,
    connections := hostState.connections }

/-- `handlePlayerAction` (lines 354-396): apply the action, then
unconditionally rebroadcast the full state. -/
def handlePlayerAction (s : GState) (a : GameAction) : GState × List Message :=
  let s1 := applyAction s a
  (s1, [broadcastGameState s1])

/-- `handlePeerMessage(conn, message)` (lines 129-152), returning the new
local state and the messages sent in response.  The switch has cases only for
REQUEST_GAME_STATE, SYNC_GAME_STATE and PLAYER_ACTION; every other type —
including JOIN — falls through to the default branch, which logs a warning
and drops the message. -/
def handlePeerMessage (s : GState) (m : Message) : GState × List Message :=
  if m.type = "REQUEST_GAME_STATE" then
    if s.isHost then (s, [broadcastGameState s]) else (s, [])
  else if m.type = "SYNC_GAME_STATE" then
    if s.isHost then (s, [])
    else
      match m.payload with
      | .statePayload hostState => (updateGameStateFromHost s hostState, [])
      | _ => (s, [])
  else if m.type = "PLAYER_ACTION" then
    if s.isHost then
      match m.payload with
      | .actionPayload a => handlePlayerAction s a
      | _ => (s, [broadcastGameState s])
    else (s, [])
  else (s, [])

/-- The states the host's canonical `gameState` can reach: the state built by
`initGameAsHost` (for either random first player), followed by any sequence of
actions processed by `handlePlayerAction`. -/
inductive Reachable : GState → Prop where
  | init (r : Nat) (hid : String) (hr : r < 2) :
      Reachable (initGameAsHost r (hostStartState hid))
  | step (s : GState) (a : GameAction) :
      Reachable s → Reachable (applyAction s a)

/-- Card ids of a list of cards. -/
def cardIdsOf (cs : List Card) : List String :=
  cs.map (fun c => c.cardId)

/-- All cards held in some player's hand. -/
def allHandCards (s : GState) : List Card :=
  (s.players.map (fun p => p.hand)).flatten

/-- All cards held in some slot stack. -/
def allSlotCards (s : GState) : List Card :=
  s.fieldSlots.flatten

/-- Membership of a card id in at least one of the three container kinds. -/
def inSomeContainer (s : GState) (cid : String) : Prop :=
  cid ∈ cardIdsOf s.deck ∨ cid ∈ cardIdsOf (allHandCards s) ∨
    cid ∈ cardIdsOf (allSlotCards s)

instance (s : GState) (cid : String) : Decidable (inSomeContainer s cid) := by
  unfold inSomeContainer
  infer_instance

/-! ### General helper lemmas -/

theorem listSet_getElem_self {α : Type} (l : List α) (i : Nat) (h : i < l.length) :
    l.set i l[i] = l := by
  apply List.ext_getElem?
  intro j
  rw [List.getElem?_set]
  split
  · next he => subst he; simp [List.getElem?_eq_getElem h]
  · rfl

theorem mem_of_mem_set {α : Type} {l : List α} {i : Nat} {a p : α}
    (hp : p ∈ l.set i a) : p ∈ l ∨ p = a := by
  rw [List.set_eq_take_append_cons_drop] at hp
  by_cases h : i < l.length
  · rw [if_pos h] at hp
    rcases List.mem_append.mp hp with h1 | h1
    · exact Or.inl (List.take_subset _ _ h1)
    · rcases List.mem_cons.mp h1 with h2 | h2
      · exact Or.inr h2
      · exact Or.inl (List.drop_subset _ _ h2)
  · rw [if_neg h] at hp
    exact Or.inl hp

theorem mem_of_getElem_eq_some {α : Type} {l : List α} {n : Nat} {a : α}
    (h : l[n]? = some a) : a ∈ l := by
  obtain ⟨hlt, rfl⟩ := List.getElem?_eq_some_iff.mp h
  exact List.getElem_mem hlt

theorem clampLifeforce_nonneg (x : Int) : 0 ≤ clampLifeforce x :=
  le_max_left 0 _

theorem clampLifeforce_le (x : Int) : clampLifeforce x ≤ 10 := by
  unfold clampLifeforce clamp
  exact max_le (by norm_num) (min_le_right x 10)

theorem clampHealth_nonneg (x : Int) : 0 ≤ clampHealth x :=
  le_max_right x 0

/-! ### Concrete states used to instantiate the theorems -/

/-- The host's canonical state right after `initGameAsHost` with the random
first turn falling on player 1. -/
def demoState : GState := initGameAsHost 0 (hostStartState "host-1")

/-- The player object stored at index 0 of `demoState`. -/
def demoP1 : Player := { createPlayer "p1" "Player 1" with isMyTurn := true }

/-- A state whose deck is too small for a reset but whose battlefield is not
empty: slot 0 holds one card and the deck is empty. -/
def shortDeckState : GState :=
  { initialGameState with
    players := [createPlayer "p1" "Player 1", createPlayer "p2" "Player 2"],
    fieldSlots := [[createCard "card-0" "assets/front-0.png" "assets/back.png"],
                   [], [], [], [], [], [], [], [], []] }

/-! ### Claim C2 -/

/-- Claim C2 as stated is false on the code: applying DECK_RESET to a state
with an empty deck and a non-empty slot does change the canonical state,
because `applyDeckReset` clears every slot stack and hand before checking the
41-card precondition. -/
theorem c2_counterexample :
    shortDeckState.deck.length < 41 ∧
    applyDeckReset shortDeckState ≠ shortDeckState := by
  decide

/-- Claim C2 (amended): if DECK_RESET is applied when the deck has fewer than
41 cards, no cards are placed and the deck, turn state, resources and flags
are unchanged, but every slot stack and every player's hand is cleared — the
clearing happens before the validation check. -/
theorem c2_deck_reset_insufficient (s : GState) (h : s.deck.length < 41) :
    applyDeckReset s =
      { s with
        fieldSlots := s.fieldSlots.map (fun _ => ([] : List Card)),
        players := s.players.map (fun p => { p with hand := ([] : List Card) }) } := by
  unfold applyDeckReset
  rw [if_pos h]

/-- Witness: the amended C2 applied to the concrete short-deck state. -/
theorem c2_deck_reset_insufficient_witness :
    applyDeckReset shortDeckState =
      { shortDeckState with
        fieldSlots := shortDeckState.fieldSlots.map (fun _ => ([] : List Card)),
        players := shortDeckState.players.map
          (fun p => { p with hand := ([] : List Card) }) } :=
  c2_deck_reset_insufficient shortDeckState (by decide)

/-! ### Claim C4 -/

/-- Claim C4 as stated is false on the code: `handlePeerMessage` has no JOIN
case, so a JOIN message received by the host leaves the player list unchanged
and sends nothing — no player is appended and no rebroadcast happens. -/
theorem c4_counterexample :
    (handlePeerMessage demoState { type := "JOIN", payload := .emptyPayload }).1
      = demoState ∧
    (handlePeerMessage demoState { type := "JOIN", payload := .emptyPayload }).2
      = [] :=
  ⟨rfl, rfl⟩

/-- Claim C4 (amended): a JOIN message falls through to the default branch of
`handlePeerMessage`: it is logged and dropped, the state (in particular the
player list) is unchanged, and no message is sent; the player list is fixed at
host initialisation. -/
theorem c4_join_dropped (s : GState) (p : MsgPayload) :
    handlePeerMessage s { type := "JOIN", payload := p } = (s, []) := rfl

/-! ### Claim C5 -/

/-- Claim C5: submitting END_TURN with a playerId different from the current
player's id leaves the state entirely unchanged. -/
theorem c5_end_turn_wrong_player (s : GState) (playerId : String) (cp : Player)
    (hcp : s.players[s.currentPlayerIndex]? = some cp)
    (hid : cp.id ≠ playerId) :
    endTurn s playerId = s := by
  unfold endTurn
  rw [hcp]
  simp [hid]

/-- Witness: END_TURN submitted by p2 while it is p1's turn is a no-op. -/
theorem c5_end_turn_wrong_player_witness : endTurn demoState "p2" = demoState :=
  c5_end_turn_wrong_player demoState "p2" demoP1 (by decide) (by decide)

/-! ### Claim C6 -/

/-- Claim C6: with at least 41 cards in the deck, DECK_RESET leaves the hero
slot (index 2) holding exactly the single card deck[0], the main-deck slot
(index 8) holding exactly deck[1..40] in deck order, and every hand and every
other slot stack empty. -/
theorem c6_deck_reset_full (s : GState) (d0 : Card)
    (hlen : 41 ≤ s.deck.length)
    (hslots : s.fieldSlots.length = 10)
    (hd0 : s.deck[0]? = some d0) :
    (applyDeckReset s).fieldSlots[2]? = some [d0] ∧
    (applyDeckReset s).fieldSlots[8]? = some ((s.deck.drop 1).take 40) ∧
    ((s.deck.drop 1).take 40).length = 40 ∧
    (∀ i : Nat, i < 10 → i ≠ 2 → i ≠ 8 →
      (applyDeckReset s).fieldSlots[i]? = some []) ∧
    (∀ p ∈ (applyDeckReset s).players, p.hand = []) := by
  have hnot : ¬ s.deck.length < 41 := by omega
  have htake : s.deck.take 1 = [d0] := by
    rw [List.take_one, ← List.head?_eq_getElem?] at *
    rw [hd0]
    rfl
  have hlen0 : (s.fieldSlots.map (fun _ => ([] : List Card))).length = 10 := by
    rw [List.length_map, hslots]
  unfold applyDeckReset
  rw [if_neg hnot]
  refine ⟨?_, ?_, ?_, ?_, ?_⟩
  · rw [List.getElem?_set_ne (by decide : (8 : Nat) ≠ 2),
      List.getElem?_set_self (by omega), htake]
  · rw [List.getElem?_set_self (by rw [List.length_set]; omega)]
  · rw [List.length_take, List.length_drop]
    omega
  · intro i hi h2 h8
    rw [List.getElem?_set_ne (by omega : (8 : Nat) ≠ i),
      List.getElem?_set_ne (by omega : (2 : Nat) ≠ i),
      List.getElem?_map, List.getElem?_eq_getElem (by omega : i < s.fieldSlots.length)]
    rfl
  · intro p hp
    rcases List.mem_map.mp hp with ⟨q, _, rfl⟩
    rfl

/-- A pre-reset state holding the canonical 41-card deck. -/
def fullDeckState : GState :=
  { initialGameState with
    deck := canonicalDeck,
    players := [createPlayer "p1" "Player 1", createPlayer "p2" "Player 2"] }

/-- The first card of the canonical deck. -/
def demoCard0 : Card :=
  createCard "card-0" "assets/front-0.png" "assets/back.png"

/-- Witness: C6 instantiated at the concrete 41-card state. -/
theorem c6_deck_reset_full_witness :
    (applyDeckReset fullDeckState).fieldSlots[2]? = some [demoCard0] ∧
    (applyDeckReset fullDeckState).fieldSlots[8]?
      = some ((fullDeckState.deck.drop 1).take 40) ∧
    ((fullDeckState.deck.drop 1).take 40).length = 40 ∧
    (applyDeckReset fullDeckState).fieldSlots[0]? = some [] := by
  have h := c6_deck_reset_full fullDeckState demoCard0 (by decide) (by decide) (by decide)
  exact ⟨h.1, h.2.1, h.2.2.1, h.2.2.2.1 0 (by decide) (by decide) (by decide)⟩

/-! ### Claim C8 -/

theorem mem_updateFirst {f : Player → Player} {pid : String} :
    ∀ {l : List Player} {p : Player},
      p ∈ updateFirst f pid l → p ∈ l ∨ ∃ q ∈ l, p = f q := by
  intro l
  induction l with
  | nil => intro p hp; cases hp
  | cons a l ih =>
    intro p hp
    unfold updateFirst at hp
    by_cases ha : a.id = pid
    · rw [if_pos ha] at hp
      rcases List.mem_cons.mp hp with h | h
      · exact Or.inr ⟨a, List.mem_cons_self _ _, h⟩
      · exact Or.inl (List.mem_cons_of_mem _ h)
    · rw [if_neg ha] at hp
      rcases List.mem_cons.mp hp with h | h
      · exact Or.inl (h ▸ List.mem_cons_self _ _)
      · rcases ih h with h1 | ⟨q, hq, rfl⟩
        · exact Or.inl (List.mem_cons_of_mem _ h1)
        · exact Or.inr ⟨q, List.mem_cons_of_mem _ hq, rfl⟩

/-- Claim C8: starting from a state whose players satisfy the resource
invariants, every UPDATE_RESOURCE leaves the affected player (and all others)
with lifeforce in [0,10] and health at least 0, and every END_TURN-driven
regeneration leaves every player's lifeforce in [0,10]. -/
theorem c8_resource_clamps (s : GState)
    (hpre : ∀ p ∈ s.players, 0 ≤ p.lifeforce ∧ p.lifeforce ≤ 10 ∧ 0 ≤ p.health) :
    (∀ (pid ty : String) (v : Int),
      ∀ p ∈ (applyResourceUpdate s pid ty v).players,
        0 ≤ p.lifeforce ∧ p.lifeforce ≤ 10 ∧ 0 ≤ p.health) ∧
    (∀ pid : String, ∀ p ∈ (endTurn s pid).players,
        0 ≤ p.lifeforce ∧ p.lifeforce ≤ 10) := by
  constructor
  · intro pid ty v p hp
    unfold applyResourceUpdate at hp
    dsimp only at hp
    rcases mem_updateFirst hp with h | ⟨q, hq, rfl⟩
    · exact hpre p h
    · rcases hpre q hq with ⟨h1, h2, h3⟩
      by_cases hh : ty = "health"
      · rw [if_pos hh]
        exact ⟨h1, h2, clampHealth_nonneg v⟩
      · rw [if_neg hh]
        by_cases hl : ty = "lifeforce"
        · rw [if_pos hl]
          exact ⟨clampLifeforce_nonneg v, clampLifeforce_le v, h3⟩
        · rw [if_neg hl]
          exact ⟨h1, h2, h3⟩
  · intro pid p hp
    unfold endTurn at hp
    cases hcp : s.players[s.currentPlayerIndex]? with
    | none =>
      rw [hcp] at hp
      exact ⟨(hpre p hp).1, (hpre p hp).2.1⟩
    | some cp =>
      rw [hcp] at hp
      dsimp only at hp
      by_cases hid : cp.id = pid
      · rw [if_pos hid] at hp
        dsimp only at hp
        have hcpmem : cp ∈ s.players := mem_of_getElem_eq_some hcp
        cases hnp : (s.players.set s.currentPlayerIndex
            { cp with isMyTurn := false })[(s.currentPlayerIndex + 1) % s.players.length]? with
        | none =>
          rw [hnp] at hp
          dsimp only at hp
          rcases mem_of_mem_set hp with h | h
          · exact ⟨(hpre p h).1, (hpre p h).2.1⟩
          · subst h
            exact ⟨(hpre cp hcpmem).1, (hpre cp hcpmem).2.1⟩
        | some np =>
          rw [hnp] at hp
          dsimp only at hp
          rcases mem_of_mem_set hp with h | h
          · rcases mem_of_mem_set h with h1 | h1
            · exact ⟨(hpre p h1).1, (hpre p h1).2.1⟩
            · subst h1
              exact ⟨(hpre cp hcpmem).1, (hpre cp hcpmem).2.1⟩
          · subst h
            exact ⟨clampLifeforce_nonneg _, clampLifeforce_le _⟩
      · rw [if_neg hid] at hp
        exact ⟨(hpre p hp).1, (hpre p hp).2.1⟩

/-- The state after p1 absolutely sets lifeforce to 25. -/
def c8updState : GState := applyResourceUpdate demoState "p1" "lifeforce" 25

/-- The state after p1 ends their turn. -/
def c8turnState : GState := endTurn demoState "p1"

/-- The affected player of the UPDATE_RESOURCE in `c8updState`. -/
def c8pA : Player := c8updState.players.getD 0 (createPlayer "x" "x")

/-- The regenerated player of the END_TURN in `c8turnState`. -/
def c8pB : Player := c8turnState.players.getD 1 (createPlayer "x" "x")

/-- Witness: C8 instantiated at the initialised host state. -/
theorem c8_resource_clamps_witness :
    (0 ≤ c8pA.lifeforce ∧ c8pA.lifeforce ≤ 10 ∧ 0 ≤ c8pA.health) ∧
    (0 ≤ c8pB.lifeforce ∧ c8pB.lifeforce ≤ 10) :=
  ⟨(c8_resource_clamps demoState (by decide)).1 "p1" "lifeforce" 25 c8pA (by decide),
   (c8_resource_clamps demoState (by decide)).2 "p1" c8pB (by decide)⟩

/-! ### Claim C10 -/

/-- Claim C10: a client processing the host's SYNC_GAME_STATE snapshot
overwrites every field of its local state — the role and connection fields
included — so after the first synchronisation the client's `isHost` equals
the host's serialised value `true` and its `hostId` and `connections` are the
host's; the mirror becomes the whole host state, not just the game fields. -/
theorem c10_sync_overwrites_role (client host : GState)
    (hc : client.isHost = false) (hh : host.isHost = true) :
    (handlePeerMessage client (broadcastGameState host)).1.isHost = true ∧
    (handlePeerMessage client (broadcastGameState host)).1.hostId = host.hostId ∧
    (handlePeerMessage client (broadcastGameState host)).1.connections
      = host.connections ∧
    (handlePeerMessage client (broadcastGameState host)).1 = host := by
  have hmain : (handlePeerMessage client (broadcastGameState host)).1 = host := by
    simp [handlePeerMessage, broadcastGameState, hc, updateGameStateFromHost]
  exact ⟨by rw [hmain]; exact hh, by rw [hmain], by rw [hmain], hmain⟩

/-- A fresh client mirror before its first synchronisation. -/
def demoClient : GState := { initialGameState with hostId := some "host-1" }

/-- Witness: C10 at the concrete client and initialised host states. -/
theorem c10_sync_overwrites_role_witness :
    (handlePeerMessage demoClient (broadcastGameState demoState)).1.isHost = true ∧
    (handlePeerMessage demoClient (broadcastGameState demoState)).1.hostId
      = demoState.hostId ∧
    (handlePeerMessage demoClient (broadcastGameState demoState)).1.connections
      = demoState.connections ∧
    (handlePeerMessage demoClient (broadcastGameState demoState)).1 = demoState :=
  c10_sync_overwrites_role demoClient demoState (by decide) (by decide)

/-! ### Claim C7 -/

theorem coe_set_add (l : List Card) (n : Nat) (h : n < l.length) (a : Card) :
    ((l.set n a : List Card) : Multiset Card) + {l[n]}
      = (l : Multiset Card) + {a} := by
  rw [List.set_eq_take_append_cons_drop, if_pos h]
  conv_rhs => rw [← List.take_append_drop n l, ← List.getElem_cons_drop l n h]
  simp only [← Multiset.coe_add, ← Multiset.cons_coe, ← Multiset.singleton_add]
  abel

theorem swap_perm (l : List Card) (i j : Nat) : (swap l i j).Perm l := by
  unfold swap
  cases hi : l[i]? with
  | none => exact List.Perm.refl l
  | some a =>
    cases hj : l[j]? with
    | none => exact List.Perm.refl l
    | some b =>
      dsimp only
      obtain ⟨hi', rfl⟩ := List.getElem?_eq_some_iff.mp hi
      obtain ⟨hj', rfl⟩ := List.getElem?_eq_some_iff.mp hj
      by_cases hij : i = j
      · subst hij
        rw [listSet_getElem_self l i hi', listSet_getElem_self l i hi']
      · apply Multiset.coe_eq_coe.mp
        have h1 : ((l.set i l[j] : List Card) : Multiset Card) + {l[i]}
            = (l : Multiset Card) + {l[j]} := coe_set_add l i hi' _
        have hlen : j < (l.set i l[j]).length := by
          rw [List.length_set]; exact hj'
        have h2 := coe_set_add (l.set i l[j]) j hlen l[i]
        rw [List.getElem_set_ne hij hlen, h1] at h2
        exact add_right_cancel h2

theorem shuffleAux_perm (rand : Nat → Nat) :
    ∀ (n : Nat) (l : List Card), (shuffleAux rand l n).Perm l := by
  intro n
  induction n with
  | zero => intro l; exact List.Perm.refl l
  | succ i ih =>
    intro l
    exact (ih (swap l (i + 1) (rand (i + 1)))).trans (swap_perm l (i + 1) (rand (i + 1)))

/-- Claim C7: for every stack and every sequence of random draws,
`shuffleStack` returns a permutation of the input, preserving the length and
the multiset of card identities. -/
theorem c7_shuffle_perm (rand : Nat → Nat) (stack : List Card) :
    (shuffleStack rand stack).Perm stack ∧
    (shuffleStack rand stack).length = stack.length ∧
    (cardIdsOf (shuffleStack rand stack) : Multiset String)
      = (cardIdsOf stack : Multiset String) := by
  have hp : (shuffleStack rand stack).Perm stack :=
    shuffleAux_perm rand (stack.length - 1) stack
  exact ⟨hp, hp.length_eq, Multiset.coe_eq_coe.mpr (hp.map _)⟩

/-! ### Claim C9 -/

theorem reconstruct_bad (s : GState) (t : ClientTarget)
    (hslot : ∀ i : Int, t.isSlot = true → t.slotIndex = some i → slotAt s i = [])
    (hhand : ∀ cid : String, t.isHandCard = true → t.cardObject = some cid →
      findCardInAllHands s cid = none) :
    (reconstructTargetFromClient s t).stack = [] ∧
    (reconstructTargetFromClient s t).cardObject = none ∧
    ((reconstructTargetFromClient s t).slotIndex = none ∨
      ∃ i : Int, (reconstructTargetFromClient s t).slotIndex = some i ∧
        slotAt s i = []) := by
  obtain ⟨ts, tsi, th, tco⟩ := t
  unfold reconstructTargetFromClient
  rcases ts with _ | _ <;> rcases th with _ | _ <;>
    rcases tsi with _ | i <;> rcases tco with _ | cid <;>
    dsimp only at hslot hhand ⊢
  all_goals first
    | exact ⟨rfl, rfl, Or.inl rfl⟩
    | (rw [hhand _ rfl rfl]; exact ⟨rfl, rfl, Or.inl rfl⟩)
    | exact ⟨hslot _ rfl rfl, rfl, Or.inr ⟨_, rfl, hslot _ rfl rfl⟩⟩
    | (rw [hhand _ rfl rfl];
        exact ⟨hslot _ rfl rfl, rfl, Or.inr ⟨_, rfl, hslot _ rfl rfl⟩⟩)

/-- Claim C9: a FLIP, ROTATE, SHUFFLE or DRAW context action whose
client-supplied descriptor points at an empty slot, an out-of-range slot
index, or a hand-card id not present in any hand resolves to a dead target
and leaves the canonical state unchanged. -/
theorem c9_bad_target_noop (s : GState) (t : ClientTarget) (rand : Nat → Nat)
    (ty : String)
    (hty : ty = "FLIP" ∨ ty = "ROTATE" ∨ ty = "SHUFFLE" ∨ ty = "DRAW")
    (hslot : ∀ i : Int, t.isSlot = true → t.slotIndex = some i → slotAt s i = [])
    (hhand : ∀ cid : String, t.isHandCard = true → t.cardObject = some cid →
      findCardInAllHands s cid = none) :
    applyContextAction s ty (reconstructTargetFromClient s t) rand = s := by
  obtain ⟨h1, h2, h3⟩ := reconstruct_bad s t hslot hhand
  set info := reconstructTargetFromClient s t with hinfo
  have htop : getTopCard info = none := by
    unfold getTopCard
    rw [h1, h2]
    simp
  rcases hty with rfl | rfl | rfl | rfl
  · unfold applyContextAction
    rw [if_pos rfl]
    unfold flipTopCard applyTopCardUpdate
    rw [htop]
  · unfold applyContextAction
    rw [if_neg (by decide), if_pos rfl]
    unfold rotateTopCard applyTopCardUpdate
    rw [htop]
  · unfold applyContextAction
    rw [if_neg (by decide), if_neg (by decide), if_neg (by decide),
      if_neg (by decide), if_pos rfl]
    rcases h3 with h3 | ⟨i, hidx, hempty⟩
    · rw [h3]
    · rw [hidx, h1]
      have hsh : shuffleStack rand ([] : List Card) = [] := rfl
      rw [hsh]
      unfold setSlotInt
      dsimp only
      by_cases hpos : (0 : Int) ≤ i
      · rw [if_pos hpos]
        unfold slotAt at hempty
        rw [if_pos hpos] at hempty
        by_cases hlt : i.toNat < s.fieldSlots.length
        · have hge : s.fieldSlots[i.toNat] = [] := by
            rw [← List.getD_eq_getElem s.fieldSlots [] hlt]
            exact hempty
          conv_lhs =>
            rw [show ([] : List Card) = s.fieldSlots[i.toNat] from hge.symm]
          rw [listSet_getElem_self _ _ hlt]
        · rw [List.set_eq_of_length_le (by omega)]
      · rw [if_neg hpos]
  · unfold applyContextAction
    rw [if_neg (by decide), if_neg (by decide), if_neg (by decide),
      if_neg (by decide), if_neg (by decide), if_pos rfl]
    unfold drawTopCard
    rw [htop]

/-- A descriptor naming slot 5, which is empty in `demoState`. -/
def badTarget : ClientTarget :=
  { isSlot := true, slotIndex := some 5, isHandCard := false, cardObject := none }

/-- A fixed random source. -/
def zeroRand : Nat → Nat := fun _ => 0

/-- Witness: a DRAW aimed at the empty slot 5 of `demoState` is a no-op. -/
theorem c9_bad_target_noop_witness :
    applyContextAction demoState "DRAW"
      (reconstructTargetFromClient demoState badTarget) zeroRand = demoState :=
  c9_bad_target_noop demoState badTarget zeroRand "DRAW"
    (Or.inr (Or.inr (Or.inr rfl)))
    (by
      intro i h hi
      injection hi with h2
      subst h2
      decide)
    (by
      intro cid h hc
      exact absurd h (by decide))

/-! ### Claim C3 -/

/-- Claim C3: when the current player submits END_TURN, the turn index
advances circularly, the old current player's turn flag is cleared (when the
index actually moves), the new current player's flag is set and their
lifeforce becomes their old lifeforce plus 5 clamped to [0,10]; and provided
no other player held the flag beforehand, at most one player holds the flag
afterwards (exactly the new current player). -/
theorem c3_end_turn_advance (s : GState) (playerId : String) (cp : Player)
    (hcp : s.players[s.currentPlayerIndex]? = some cp)
    (hid : cp.id = playerId)
    (hexcl : ∀ j : Nat, j < s.players.length → j ≠ s.currentPlayerIndex →
      (s.players.getD j (createPlayer "" "")).isMyTurn = false) :
    (endTurn s playerId).currentPlayerIndex
      = (s.currentPlayerIndex + 1) % s.players.length ∧
    (endTurn s playerId).players.length = s.players.length ∧
    ((s.currentPlayerIndex + 1) % s.players.length ≠ s.currentPlayerIndex →
      (endTurn s playerId).players[s.currentPlayerIndex]?
        = some { cp with isMyTurn := false }) ∧
    (∀ np : Player,
      s.players[(s.currentPlayerIndex + 1) % s.players.length]? = some np →
      ∃ np' : Player,
        (endTurn s playerId).players[(s.currentPlayerIndex + 1) %
          s.players.length]? = some np' ∧
        np'.isMyTurn = true ∧
        np'.lifeforce = clampLifeforce (np.lifeforce + 5)) ∧
    (∀ (j : Nat) (p : Player), (endTurn s playerId).players[j]? = some p →
      p.isMyTurn = true → j = (s.currentPlayerIndex + 1) % s.players.length) := by
  have hlt : s.currentPlayerIndex < s.players.length :=
    (List.getElem?_eq_some_iff.mp hcp).1
  have hpos : 0 < s.players.length := Nat.lt_of_le_of_lt (Nat.zero_le _) hlt
  have hlen1 : (s.players.set s.currentPlayerIndex
      { cp with isMyTurn := false }).length = s.players.length :=
    List.length_set _ _ _
  have hnewlt : (s.currentPlayerIndex + 1) % s.players.length
      < s.players.length := Nat.mod_lt _ hpos
  obtain ⟨np1, hnp1⟩ : ∃ np1, (s.players.set s.currentPlayerIndex
      { cp with isMyTurn := false })[(s.currentPlayerIndex + 1) %
        s.players.length]? = some np1 :=
    ⟨_, List.getElem?_eq_getElem (by rw [hlen1]; exact hnewlt)⟩
  have heq : endTurn s playerId =
      { s with
        players := (s.players.set s.currentPlayerIndex
          { cp with isMyTurn := false }).set
          ((s.currentPlayerIndex + 1) % s.players.length)
          { np1 with
            isMyTurn := true,
            lifeforce := clampLifeforce (np1.lifeforce + 5) },
        currentPlayerIndex := (s.currentPlayerIndex + 1) % s.players.length } := by
    unfold endTurn
    rw [hcp]
    dsimp only
    rw [if_pos hid, hnp1]
  refine ⟨?_, ?_, ?_, ?_, ?_⟩
  · rw [heq]
  · rw [heq]
    dsimp only
    rw [List.length_set, List.length_set]
  · intro hne
    rw [heq]
    dsimp only
    rw [List.getElem?_set_ne hne, List.getElem?_set_self hlt]
  · intro np hnp
    refine ⟨{ np1 with
      isMyTurn := true,
      lifeforce := clampLifeforce (np1.lifeforce + 5) }, ?_, rfl, ?_⟩
    · rw [heq]
      dsimp only
      exact List.getElem?_set_self (by rw [hlen1]; exact hnewlt)
    · dsimp only
      by_cases hne : (s.currentPlayerIndex + 1) % s.players.length
          = s.currentPlayerIndex
      · rw [hne, List.getElem?_set_self hlt] at hnp1
        rw [hne, hcp] at hnp
        injection hnp1 with h1
        injection hnp with h2
        rw [← h1, ← h2]
      · rw [List.getElem?_set_ne (fun h => hne h.symm), hnp] at hnp1
        injection hnp1 with h1
        rw [← h1]
  · intro j p hp htrue
    by_cases hj : j = (s.currentPlayerIndex + 1) % s.players.length
    · exact hj
    · exfalso
      rw [heq] at hp
      dsimp only at hp
      rw [List.getElem?_set_ne (fun h => hj h.symm)] at hp
      by_cases hjo : j = s.currentPlayerIndex
      · subst hjo
        rw [List.getElem?_set_self hlt] at hp
        injection hp with h
        rw [← h] at htrue
        exact Bool.false_ne_true htrue
      · rw [List.getElem?_set_ne (fun h => hjo h.symm)] at hp
        have hjlt : j < s.players.length := (List.getElem?_eq_some_iff.mp hp).1
        have hfalse := hexcl j hjlt hjo
        rw [List.getD_eq_getElem _ _ hjlt] at hfalse
        rw [List.getElem?_eq_getElem hjlt] at hp
        injection hp with h
        rw [← h] at htrue
        rw [htrue] at hfalse
        exact Bool.noConfusion hfalse

/-- Witness: END_TURN by p1 in the concrete two-player state advances the
turn to p2, clears p1's flag, sets p2's flag and regenerates p2's lifeforce. -/
theorem c3_end_turn_advance_witness :
    (endTurn demoState "p1").currentPlayerIndex
      = (demoState.currentPlayerIndex + 1) % demoState.players.length ∧
    (endTurn demoState "p1").players.length = demoState.players.length ∧
    (endTurn demoState "p1").players[demoState.currentPlayerIndex]?
      = some { demoP1 with isMyTurn := false } := by
  have h := c3_end_turn_advance demoState "p1" demoP1 (by decide) rfl (by decide)
  exact ⟨h.1, h.2.1, h.2.2.1 (by decide)⟩

/-! ### Claim C1 -/

theorem setSlotInt_deck (s : GState) (i : Int) (st : List Card) :
    (setSlotInt s i st).deck = s.deck := by
  unfold setSlotInt
  split <;> rfl

theorem pushToCurrentHand_deck (s : GState) (c : Card) :
    (pushToCurrentHand s c).deck = s.deck := by
  unfold pushToCurrentHand
  split <;> rfl

theorem writeThroughDeck_ids (deck : List Card) (c : Card) :
    cardIdsOf (writeThroughDeck deck c) = cardIdsOf deck := by
  unfold writeThroughDeck cardIdsOf
  rw [List.map_map]
  apply List.map_congr_left
  intro d _
  simp only [Function.comp_apply]
  by_cases h : d.cardId = c.cardId
  · rw [if_pos h, h]
  · rw [if_neg h]

theorem applyTopCardUpdate_deckIds (s : GState) (t : TargetInfo) (f : Card → Card) :
    cardIdsOf (applyTopCardUpdate s t f).deck = cardIdsOf s.deck := by
  unfold applyTopCardUpdate
  split
  · rfl
  · split
    · split
      · dsimp only
        rw [writeThroughDeck_ids, setSlotInt_deck]
      · rfl
    · dsimp only
      rw [writeThroughDeck_ids]

theorem drawTopCard_deck (s : GState) (t : TargetInfo) :
    (drawTopCard s t).deck = s.deck := by
  unfold drawTopCard
  split
  · rfl
  · rw [pushToCurrentHand_deck]
    split
    · exact setSlotInt_deck _ _ _
    · rfl

theorem applyContextAction_deckIds (s : GState) (ty : String) (t : TargetInfo)
    (rand : Nat → Nat) :
    cardIdsOf (applyContextAction s ty t rand).deck = cardIdsOf s.deck := by
  unfold applyContextAction
  split_ifs <;> first
    | rfl
    | (unfold flipTopCard; exact applyTopCardUpdate_deckIds _ _ _)
    | (unfold rotateTopCard; exact applyTopCardUpdate_deckIds _ _ _)
    | (rw [drawTopCard_deck])
    | (split <;> first | (rw [setSlotInt_deck]) | rfl)

theorem moveCardToSlot_deckIds (s : GState) (cid : String) (si : Nat) (fh : Bool)
    (fsi : Option Nat) :
    cardIdsOf (moveCardToSlot s cid si fh fsi).deck = cardIdsOf s.deck := by
  unfold moveCardToSlot
  split
  · split
    · dsimp only
      rw [writeThroughDeck_ids]
    · rfl
  · split
    · rfl
    · split
      · rfl
      · split
        · dsimp only
          rw [writeThroughDeck_ids]
        · rfl

theorem applyForfeit_deck (s : GState) (pid : String) :
    (applyForfeit s pid).deck = s.deck := by
  unfold applyForfeit
  split
  · rfl
  · dsimp only
    split <;> rfl

theorem applyDeckReset_deck (s : GState) :
    (applyDeckReset s).deck = s.deck := by
  unfold applyDeckReset
  split <;> rfl

theorem applyGameReset_deck (s : GState) (r : Nat) :
    (applyGameReset s r).deck = canonicalDeck := by
  unfold applyGameReset
  rw [applyDeckReset_deck]

theorem endTurn_deck (s : GState) (pid : String) :
    (endTurn s pid).deck = s.deck := by
  unfold endTurn
  split
  · rfl
  · split <;> rfl

theorem initGameAsHost_deck (r : Nat) (s : GState) :
    (initGameAsHost r s).deck = canonicalDeck := by
  unfold initGameAsHost
  rw [applyDeckReset_deck]

theorem applyAction_deckIds (s : GState) (a : GameAction) :
    cardIdsOf (applyAction s a).deck = cardIdsOf s.deck ∨
      (applyAction s a).deck = canonicalDeck := by
  cases a with
  | endTurnAct pid => exact Or.inl (congrArg cardIdsOf (endTurn_deck s pid))
  | moveCardAct cid si fh fsi =>
      exact Or.inl (moveCardToSlot_deckIds s cid si fh fsi)
  | contextAct ty tgt rand => exact Or.inl (applyContextAction_deckIds s ty _ rand)
  | updateResourceAct pid ty v => exact Or.inl rfl
  | forfeitAct pid => exact Or.inl (congrArg cardIdsOf (applyForfeit_deck s pid))
  | deckResetAct => exact Or.inl (congrArg cardIdsOf (applyDeckReset_deck s))
  | gameResetAct r => exact Or.inr (applyGameReset_deck s r)
  | unknownAct => exact Or.inl rfl

theorem deckIds_invariant (s : GState) (h : Reachable s) :
    cardIdsOf s.deck = cardIdsOf canonicalDeck := by
  induction h with
  | init r hid hr => rw [initGameAsHost_deck]
  | step s a hs ih =>
    rcases applyAction_deckIds s a with h1 | h1
    · rw [h1, ih]
    · rw [h1]

/-- Claim C1 as stated is false on the code: in the reachable state produced
by host initialisation, the card with id card-0 is simultaneously a member of
the undealt deck and of a slot stack — `applyDeckReset` places deck cards into
slots without removing them from the deck, so deck membership is not disjoint
from the slot stacks and a card can belong to two containers. -/
theorem c1_counterexample :
    Reachable demoState ∧
    "card-0" ∈ cardIdsOf demoState.deck ∧
    "card-0" ∈ cardIdsOf (allSlotCards demoState) :=
  ⟨Reachable.init 0 "host-1" (by decide), by decide, by decide⟩

/-- Claim C1 (amended): in every reachable state the deck holds exactly the
41 canonical card ids (its entries' mutable fields track the slot and hand
objects they alias, but no mutation ever touches a card id and no card is
ever removed from the deck), so every card belongs to at least one container;
membership is not exclusive — immediately after host initialisation every
deck card also sits in a slot stack (see the counterexample), so the
"exactly one container" and deck-disjointness parts of the claim fail. -/
theorem c1_card_containment (s : GState) (h : Reachable s) :
    cardIdsOf s.deck = cardIdsOf canonicalDeck ∧
    ∀ cid ∈ cardIdsOf canonicalDeck, inSomeContainer s cid := by
  have hdeck := deckIds_invariant s h
  refine ⟨hdeck, ?_⟩
  intro cid hcid
  exact Or.inl (by rw [hdeck]; exact hcid)

/-- Witness: the containment theorem applied to the initial host state and
the card with id card-0. -/
theorem c1_card_containment_witness : inSomeContainer demoState "card-0" :=
  (c1_card_containment demoState (Reachable.init 0 "host-1" (by decide))).2
    "card-0" (by decide)
